import Mathlib

/-!
Verification development for the `hudler` repository.

The repository forwards a numeric vehicle-speed telemetry value from an SSE
HTTP stream to a serial-attached display device.  This file shallowly embeds
the parts of the code relevant to the frozen claims:

* `src/main.py` — `HUDClient.parse_event_data` and the
  `HUDClient.connect_and_display` retry loop;
* `src/display.py` — the serial channel logic shared by
  `PicoScrollDisplay.update_speed` and `QualiaESP32Display.update_speed`
  (the two methods are behaviourally identical), the `_reconnect` /
  `_init_serial` helpers, and the port auto-detection heuristics
  `_find_pico_port` / `_find_esp32_port`;
* `src/code.py` — the pending/last-speed display throttle in the device-side
  `main` loop.

Python floats are modelled as rationals (`ℚ`); the claims under study do not
depend on floating-point rounding.  Exceptions are modelled with `Except`:
a function that can let a Python exception escape to its caller returns
`Except e α`, and a `try/except` block is embedded as a `match` on the
fallible body.
-/

namespace Hudler

/-! ## Python value model

`json.loads` produces Python values: `None`, booleans, ints, floats,
strings, lists and dicts.  A JSON input handed to `parse_event_data` is
either malformed (`Except.error ()`, i.e. `json.JSONDecodeError`) or a
decoded value. -/

/-- A decoded Python/JSON value as produced by `json.loads`. -/
inductive PyVal where
  | none
  | bool (b : Bool)
  | int (n : ℤ)
  | float (q : ℚ)
  | str (s : String)
  | list (xs : List PyVal)
  | dict (kvs : List (String × PyVal))

/-- Python truthiness (`bool(v)`): `None`/`False`/`0`/`0.0`/empty
containers are falsy. -/
def truthy : PyVal → Bool
  | .none => false
  | .bool b => b
  | .int n => n ≠ 0
  | .float q => q ≠ 0
  | .str s => s ≠ ""
  | .list xs => ¬ xs.isEmpty
  | .dict kvs => ¬ kvs.isEmpty

/-- Python `a or b`: returns `a` when `a` is truthy, else `b`. -/
def pyOr (a b : PyVal) : PyVal := if truthy a then a else b

/-- Python `dict.get(k)`: the value bound to `k`, or `None` when absent.
JSON objects appearing in this development have pairwise distinct keys, so
a first-match association-list lookup is faithful. -/
def dictGet (kvs : List (String × PyVal)) (k : String) : PyVal :=
  match kvs.find? (fun p => p.1 == k) with
  | some p => p.2
  | Option.none => .none

/-- The rational carried by a numeric (`int` or `float`) Python value. -/
def numval : PyVal → Option ℚ
  | .int n => some (n : ℚ)
  | .float q => some q
  | _ => Option.none

/-- Errors `float(x)` can raise: `ValueError` for an unparsable string,
`TypeError` for a non-numeric non-string. -/
inductive FloatErr where
  | valueError
  | typeError
deriving DecidableEq, Repr

/-- `float()` applied to a decimal digit string (no sign, no dot):
the numeric value, or `ValueError` when empty or non-digits. -/
def floatOfDigits (cs : List Char) : Option ℚ :=
  if cs.isEmpty ∨ ¬ cs.all Char.isDigit then Option.none
  else some ((cs.foldl (fun acc c => 10 * acc + (c.toNat - 48)) 0 : ℕ) : ℚ)

/-- `float()` applied to a string: models Python's parse of the plain
decimal forms `digits` and `digits.digits` with an optional leading `-`.
(Exponents, `inf`/`nan` and surrounding whitespace are not exercised by
any payload in this development.) -/
def floatOfString (s : String) : Option ℚ :=
  let core : List Char → Option ℚ := fun cs =>
    match cs.splitOn '.' with
    | [whole] => floatOfDigits whole
    | [whole, frac] =>
        match floatOfDigits whole, floatOfDigits frac with
        | some w, some f => some (w + f / ((10 : ℚ) ^ frac.length))
        | _, _ => Option.none
    | _ => Option.none
  match s.toList with
  | '-' :: rest => (core rest).map (fun q => -q)
  | cs => core cs

/-- Python `float(v)`: numeric values convert directly, `bool` converts as
`0`/`1`, strings are parsed (`ValueError` on failure), everything else
raises `TypeError`. -/
def pyFloat : PyVal → Except FloatErr ℚ
  | .int n => .ok (n : ℚ)
  | .float q => .ok q
  | .bool b => .ok (if b then 1 else 0)
  | .str s =>
      match floatOfString s with
      | some q => .ok q
      | Option.none => .error .valueError
  | .none => .error .typeError
  | .list _ => .error .typeError
  | .dict _ => .error .typeError

/-- The one exception `parse_event_data` can let escape: `data.get(...)` on
a decoded value that is not a dict raises `AttributeError`, which no
handler in the method catches. -/
inductive ParseExc where
  | attributeError
deriving DecidableEq, Repr

/-- `HUDClient.parse_event_data` (src/main.py lines 88–100).

The input is the result of `json.loads(event_data)`: `Except.error ()` for
malformed JSON (caught as `json.JSONDecodeError`, returning `None`).
On a decoded dict the reading is
`data.get('VDM_VehicleSpeed') or data.get('value') or data.get('speed')`
(left-associated Python `or`), then `float(...)` behind
`if speed is not None`, with `ValueError`/`TypeError` caught and turned
into `None`.  On a decoded non-dict, `.get` raises `AttributeError`,
which escapes. -/
def parse_event_data (input : Except Unit PyVal) : Except ParseExc (Option ℚ) :=
  match input with
  | .error _ => .ok Option.none
  | .ok v =>
    match v with
    | .dict kvs =>
        let speed :=
          pyOr (pyOr (dictGet kvs "VDM_VehicleSpeed") (dictGet kvs "value"))
            (dictGet kvs "speed")
        match speed with
        | .none => .ok Option.none
        | sv =>
            match pyFloat sv with
            | .ok q => .ok (some q)
            | .error _ => .ok Option.none
    | _ => .error .attributeError

/-! ## The stream-consumer loop (`HUDClient.connect_and_display`)

`connect_and_display` (src/main.py lines 102–160) runs
`while retry_count < max_retries`, issuing one HTTP connection attempt per
iteration.  We embed one run of the loop over a *script* of connection
attempts: each script entry says how that attempt goes (connection error,
interrupt, or a successful connection delivering a list of SSE events and
then terminating in some way).  The per-event processing inside a
successful connection is computed from the events themselves, because an
uncaught exception from `parse_event_data` aborts the event loop. -/

/-- One SSE event as seen by the loop body: `data` is `event.data`
(`Option.none` models an empty/absent, hence falsy, data field, which skips
parsing), already passed through `json.loads` as in `parse_event_data`.
The `keep-alive` check in the loop body is a no-op (`continue` as the last
statement), so the event name does not influence behaviour and is not
recorded. -/
structure SEvent where
  data : Option (Except Unit PyVal)

/-- How a successfully opened stream terminates after its events.  `normal`:
the iterator is exhausted and the `while` loop continues; `requestErr`: a
`requests.RequestException` is raised mid-stream; `interrupt`:
`KeyboardInterrupt` is raised mid-stream. -/
inductive StreamEnd where
  | normal
  | requestErr
  | interrupt

/-- One iteration's connection attempt.  `connFail`: `requests.get` /
`raise_for_status` raises `RequestException`.  `interruptOnConnect`:
`KeyboardInterrupt` strikes during the connection attempt.  `streamed`:
the connection succeeds (resetting the retry counter), the listed events
arrive, and then the stream ends as `term` says. -/
inductive ConnAttempt where
  | connFail
  | interruptOnConnect
  | streamed (events : List SEvent) (term : StreamEnd)

/-- Process the `for event in client.events()` body over a list of events:
returns the speeds forwarded to `display.update_speed` (successful parses)
and whether an uncaught exception from `parse_event_data` aborted the event
loop (dropping the remaining events and landing in the generic
`except Exception` handler). -/
def processEvents : List SEvent → List ℚ × Bool
  | [] => ([], false)
  | e :: rest =>
    match e.data with
    | Option.none => processEvents rest
    | some inp =>
      match parse_event_data inp with
      | .error _ => ([], true)
      | .ok Option.none => processEvents rest
      | .ok (some v) =>
          let r := processEvents rest
          (v :: r.1, r.2)

/-- How one run of `connect_and_display` ends.  `finished`: the `while`
loop exits (guard false, or `break` on `KeyboardInterrupt`) and the
function falls through to `self.display.cleanup()` and returns.  `fatal`:
the `raise` after exhausting retries propagates out of the function.
`outOfScript r`: the loop would keep running but the supplied script is
exhausted (model artefact); `r` is the retry counter at that point. -/
inductive RunExit where
  | finished
  | fatal
  | outOfScript (retry : ℕ)
deriving DecidableEq, Repr

/-- Observable summary of one run: how it ended, how many HTTP connection
attempts were issued, which speeds were forwarded to `update_speed`, and
how many times `display.cleanup()` ran. -/
structure RunResult where
  exit : RunExit
  attempts : ℕ
  forwards : List ℚ
  cleanups : ℕ
deriving DecidableEq, Repr

/-- Prefix an attempt's contribution onto the summary of the rest of the
run. -/
def RunResult.after (r : RunResult) (fwds : List ℚ) : RunResult :=
  { r with attempts := r.attempts + 1, forwards := fwds ++ r.forwards }

/-- The `while retry_count < self.max_retries` loop of
`connect_and_display`, driven by a script of connection attempts.

Faithful points: a connection failure increments `retry_count` and raises
fatally once `retry_count` reaches `maxRetries`; a successful connection
resets `retry_count` to `0` before any event is processed; an uncaught
exception from event processing (or a mid-stream `RequestException`) is
handled by a handler that increments `retry_count` and raises fatally when
the budget is exhausted; `KeyboardInterrupt` breaks out of the loop; the
single `self.display.cleanup()` call sits after the loop, so it runs
exactly on the non-fatal exits. -/
def connectLoop (maxRetries : ℕ) : ℕ → List ConnAttempt → RunResult
  | retry, script =>
    if maxRetries ≤ retry then ⟨.finished, 0, [], 1⟩
    else
      match script with
      | [] => ⟨.outOfScript retry, 0, [], 0⟩
      | .connFail :: rest =>
          if retry + 1 < maxRetries then
            (connectLoop maxRetries (retry + 1) rest).after []
          else ⟨.fatal, 1, [], 0⟩
      | .interruptOnConnect :: _ => ⟨.finished, 1, [], 1⟩
      | .streamed events term :: rest =>
          let p := processEvents events
          if p.2 then
            -- generic `except Exception`: retry_count was reset to 0 on
            -- connect, then incremented to 1 by the handler
            if 1 < maxRetries then (connectLoop maxRetries 1 rest).after p.1
            else ⟨.fatal, 1, p.1, 0⟩
          else
            match term with
            | .normal => (connectLoop maxRetries 0 rest).after p.1
            | .requestErr =>
                if 1 < maxRetries then (connectLoop maxRetries 1 rest).after p.1
                else ⟨.fatal, 1, p.1, 0⟩
            | .interrupt => ⟨.finished, 1, p.1, 1⟩

/-- `HUDClient.connect_and_display`: the loop entered with
`retry_count = 0`. -/
def connect_and_display (maxRetries : ℕ) (script : List ConnAttempt) : RunResult :=
  connectLoop maxRetries 0 script

/-! ## Decimal formatting (`f"{int(speed)}\n"`)

`PicoScrollDisplay.update_speed` and `QualiaESP32Display.update_speed`
both send `msg = f"{int(speed)}\n"` encoded as UTF-8.  We model the bytes
as characters, Python `int()` on a float as truncation toward zero on `ℚ`,
and Python's integer formatting as the usual decimal representation. -/

/-- The ASCII character of a decimal digit `0 ≤ d ≤ 9`. -/
def digitChar : ℕ → Char
  | 0 => '0' | 1 => '1' | 2 => '2' | 3 => '3' | 4 => '4'
  | 5 => '5' | 6 => '6' | 7 => '7' | 8 => '8' | 9 => '9'
  | _ => '*'

/-- Fuelled most-significant-first decimal digits of a natural number; the
fuel only serves structural recursion and is ample at `n + 1`. -/
def natDecAux : ℕ → ℕ → List Char
  | 0, _ => []
  | fuel + 1, n =>
    if n < 10 then [digitChar n]
    else natDecAux fuel (n / 10) ++ [digitChar (n % 10)]

/-- Decimal representation of a natural number, as Python formats it. -/
def natDecRepr (n : ℕ) : List Char := natDecAux (n + 1) n

/-- Decimal representation of an integer, as Python formats it: a `-` sign
followed by the digits for negatives. -/
def intDecRepr (n : ℤ) : List Char :=
  if n < 0 then '-' :: natDecRepr n.natAbs else natDecRepr n.toNat

/-- Python `int()` on a float: truncation toward zero, on the rational
model. -/
def pyTrunc (q : ℚ) : ℤ :=
  if q.num < 0 then -((q.num.natAbs / q.den : ℕ) : ℤ)
  else ((q.num.natAbs / q.den : ℕ) : ℤ)

/-- The message `f"{int(speed)}\n"` written for a speed value. -/
def speedLine (v : ℚ) : List Char := intDecRepr (pyTrunc v) ++ ['\n']

/-! ## The serial display channel
(`PicoScrollDisplay` / `QualiaESP32Display`, src/display.py)

The two classes' `update_speed`, `_reconnect`, `_init_serial` and
`cleanup` methods are behaviourally identical (they differ only in log
text and in the port-detection identifier tables, modelled separately
below), so one embedding covers both.  `pyserial` is assumed importable
(`SERIAL_AVAILABLE`), as on the deployed host.

The serial environment decides the outcomes of the externally-visible
serial operations during one call: what port discovery finds when
`self.port` is unset, whether `serial.Serial(...)` succeeds, and how
`ser.write`/`ser.flush` behaves. -/

/-- Outcome of a `ser.write`/`ser.flush` on an open port:
success, `serial.SerialException`, or any other exception. -/
inductive WriteOutcome where
  | ok
  | serialExc
  | otherExc
deriving DecidableEq, Repr

/-- External behaviour of the serial layer during one call. -/
structure SerialEnv where
  /-- Port discovery result (environment variable or auto-detection) used
  by `_find_pico_port`/`_find_esp32_port` when `self.port` is unset. -/
  foundPort : Option String
  /-- Whether `serial.Serial(port_name, baudrate, timeout=1)` succeeds. -/
  openOk : Bool
  /-- Behaviour of `ser.write` + `ser.flush`. -/
  writeOutcome : WriteOutcome

/-- Mutable state of a serial display object: the retained port name
(`self.port`), the open connection (`self.ser`, holding its port name when
open), the bytes written to the wire so far (one entry per `ser.write`
call), and `self.current_speed`. -/
structure ChannelState where
  port : Option String
  ser : Option String
  wire : List (List Char)
  current_speed : Option ℚ
deriving DecidableEq, Repr

/-- `_find_pico_port`/`_find_esp32_port`: `self.port` if set, else the
environment/auto-detection result. -/
def find_serial_port (env : SerialEnv) (st : ChannelState) : Option String :=
  match st.port with
  | some p => some p
  | Option.none => env.foundPort

/-- `_init_serial`: resolve the port; when none is found, return with
`self.ser` untouched.  Otherwise attempt `serial.Serial(...)`: on success
(after the 2 s settle delay) record the connection and the resolved port;
on failure set `self.ser = None`.  The second component counts
`serial.Serial` constructor calls made (0 or 1). -/
def init_serial (env : SerialEnv) (st : ChannelState) : ChannelState × ℕ :=
  match find_serial_port env st with
  | Option.none => (st, 0)
  | some p =>
      if env.openOk then ({ st with ser := some p, port := some p }, 1)
      else ({ st with ser := Option.none }, 1)

/-- `_reconnect`: close and drop the current connection, sleep 1 s, then
`_init_serial`. -/
def reconnect (env : SerialEnv) (st : ChannelState) : ChannelState × ℕ :=
  init_serial env { st with ser := Option.none }

/-- Per-call trace of serial activity: `serial.Serial` constructor calls
and `ser.write` calls. -/
structure CallTrace where
  openAttempts : ℕ
  writeAttempts : ℕ
deriving DecidableEq, Repr

/-- The exceptions the body of `update_speed` can raise (all of them are
caught by its handlers). -/
inductive SerExc where
  | serialException
  | otherException
deriving DecidableEq, Repr

/-- `update_speed` (PicoScrollDisplay lines 358–384 /
QualiaESP32Display lines 485–510): record `self.current_speed`; when
`self.ser` is `None`, log a warning and return without touching the port;
otherwise try to write `f"{int(speed)}\n"`.  `serial.SerialException` is
caught and answered by a synchronous `self._reconnect()`; any other
exception is caught and only logged.  The `Except` codomain is the
method's exception boundary: an uncaught exception would surface as
`.error`. -/
def update_speed (env : SerialEnv) (st : ChannelState) (speed : ℚ) :
    Except SerExc (ChannelState × CallTrace) :=
  let st := { st with current_speed := some speed }
  match st.ser with
  | Option.none => .ok (st, ⟨0, 0⟩)
  | some _ =>
      match env.writeOutcome with
      | .ok => .ok ({ st with wire := st.wire ++ [speedLine speed] }, ⟨0, 1⟩)
      | .serialExc =>
          let r := reconnect env st
          .ok (r.1, ⟨r.2, 1⟩)
      | .otherExc => .ok (st, ⟨0, 1⟩)

/-- The state reached by `update_speed` (total form: by
`update_speed_never_raises` below the `.error` branch is unreachable). -/
def update_speed_state (env : SerialEnv) (st : ChannelState) (speed : ℚ) :
    ChannelState :=
  match update_speed env st speed with
  | .ok r => r.1
  | .error _ => st

/-- Feed a list of speed values through consecutive `update_speed` calls
under a fixed serial environment (the host loop's repeated
`self.display.update_speed(speed)` calls). -/
def update_speed_all (env : SerialEnv) (st : ChannelState) (vs : List ℚ) :
    ChannelState :=
  vs.foldl (update_speed_state env) st

/-! ## Serial port auto-detection
(`_find_pico_port` lines 296–328, `_find_esp32_port` lines 421–455)

With no explicit override, each locator iterates over
`serial.tools.list_ports.comports()` and returns the first port whose
description contains one of a fixed identifier substrings, or whose USB
vendor ID is on the family's allow-list.  Python's `identifier in
port.description` is substring containment. -/

/-- A port as enumerated by `serial.tools.list_ports.comports()`. -/
structure PortInfo where
  device : String
  description : List Char
  vid : Option ℕ

/-- Substring containment: `needle in haystack` on Python strings. -/
def containsSub (needle : List Char) : List Char → Bool
  | [] => needle.isEmpty
  | c :: rest => needle.isPrefixOf (c :: rest) || containsSub needle rest

/-- `pico_identifiers` from `_find_pico_port`. -/
def pico_identifiers : List (List Char) :=
  ["Pico".toList, "pico".toList, "Raspberry Pi Pico".toList, "RPI".toList,
    "USB Serial".toList]

/-- `esp32_identifiers` from `_find_esp32_port`. -/
def esp32_identifiers : List (List Char) :=
  ["ESP32".toList, "ESP32-S3".toList, "CH340".toList, "CP210".toList,
    "Silicon Labs".toList, "USB Serial".toList]

/-- The per-port test of `_find_pico_port`'s loop: description matches an
identifier, or the vendor ID is the Raspberry Pi Foundation's `0x2E8A`. -/
def picoPortMatch (p : PortInfo) : Bool :=
  pico_identifiers.any (fun ident => containsSub ident p.description)
    || p.vid == some 0x2E8A

/-- The per-port test of `_find_esp32_port`'s loop: description matches an
identifier, or the vendor ID is one of `0x1A86` (CH340), `0x10C4`
(CP210x/Silicon Labs), `0x303A` (ESP32-S3). -/
def esp32PortMatch (p : PortInfo) : Bool :=
  esp32_identifiers.any (fun ident => containsSub ident p.description)
    || (p.vid == some 0x1A86 || p.vid == some 0x10C4 || p.vid == some 0x303A)

/-- Auto-detection over the enumerated ports: the device name of the first
port passing the per-port test. -/
def autoDetect (test : PortInfo → Bool) (ports : List PortInfo) : Option String :=
  (ports.find? test).map PortInfo.device

/-! ## The device-side display throttle (src/code.py `main`, lines 525–588)

The CircuitPython firmware reads serial lines and throttles display
updates with state `pending_speed`, `last_speed`, `last_display_update`
and the constant `display_update_interval = 0.1`.  One loop iteration
("tick") ingests the complete lines read this pass (possibly none) and
then applies the forward check — the check is the same in the
data-available branch (line 572) and the idle branch (lines 580–582).
Each received line is modelled by the result of `float(line)`:
`Option.none` for a `ValueError` (the line is skipped). -/

/-- Throttle state of the firmware main loop. -/
structure DeviceThrottle where
  pending_speed : Option ℚ
  last_speed : Option ℚ
  last_display_update : ℚ
deriving DecidableEq, Repr

/-- Ingest parsed lines:
`if speed != pending_speed: pending_speed = speed`, skipping lines whose
`float()` raised `ValueError`.  (Python's `!=` between a float and `None`
is `True`.) -/
def ingestLines (st : DeviceThrottle) (lines : List (Option ℚ)) : DeviceThrottle :=
  lines.foldl
    (fun s l =>
      match l with
      | Option.none => s
      | some v =>
          if s.pending_speed = some v then s else { s with pending_speed := some v })
    st

/-- The forward check at time `now`:
`if pending_speed is not None and pending_speed != last_speed and
(now - last_display_update) >= display_update_interval`, then
`display_speed(...)`, `last_display_update = now`,
`last_speed = pending_speed`, `pending_speed = None`.  Returns the new
state and the value forwarded to `display_speed`, if any. -/
def throttleForward (interval : ℚ) (st : DeviceThrottle) (now : ℚ) :
    DeviceThrottle × Option ℚ :=
  match st.pending_speed with
  | Option.none => (st, Option.none)
  | some v =>
      if st.last_speed ≠ some v ∧ interval ≤ now - st.last_display_update then
        (⟨Option.none, some v, now⟩, some v)
      else (st, Option.none)

/-- One full tick of the firmware loop: ingest this pass's lines, then run
the forward check at the current monotonic time. -/
def deviceTick (interval : ℚ) (st : DeviceThrottle) (lines : List (Option ℚ))
    (now : ℚ) : DeviceThrottle × Option ℚ :=
  throttleForward interval (ingestLines st lines) now

/-! ## Helper lemmas -/

/-- The characters Python integer formatting can emit. -/
def intReprChars : List Char :=
  ['-', '0', '1', '2', '3', '4', '5', '6', '7', '8', '9']

lemma digitChar_mem (d : ℕ) (h : d < 10) : digitChar d ∈ intReprChars := by
  interval_cases d <;> simp [digitChar, intReprChars]

lemma natDecAux_subset (fuel : ℕ) :
    ∀ (n : ℕ) (c : Char), c ∈ natDecAux fuel n → c ∈ intReprChars := by
  induction fuel with
  | zero => intro n c hc; simp [natDecAux] at hc
  | succ fuel ih =>
      intro n c hc
      rw [natDecAux] at hc
      by_cases h : n < 10
      · rw [if_pos h] at hc
        simp only [List.mem_singleton] at hc
        exact hc ▸ digitChar_mem n h
      · rw [if_neg h] at hc
        rcases List.mem_append.1 hc with hc | hc
        · exact ih _ _ hc
        · simp only [List.mem_singleton] at hc
          exact hc ▸ digitChar_mem _ (Nat.mod_lt _ (by norm_num))

lemma intDecRepr_subset (n : ℤ) :
    ∀ c ∈ intDecRepr n, c ∈ intReprChars := by
  intro c hc
  unfold intDecRepr at hc
  by_cases h : n < 0
  · rw [if_pos h] at hc
    rcases List.mem_cons.1 hc with hc | hc
    · simp [hc, intReprChars]
    · exact natDecAux_subset _ _ _ hc
  · rw [if_neg h] at hc
    exact natDecAux_subset _ _ _ hc

lemma newline_not_mem_intDecRepr (n : ℤ) : '\n' ∉ intDecRepr n := by
  intro h
  have := intDecRepr_subset n _ h
  simp [intReprChars] at this

lemma speedLine_count_newline (v : ℚ) : (speedLine v).count '\n' = 1 := by
  unfold speedLine
  rw [List.count_append]
  rw [List.count_eq_zero_of_not_mem (newline_not_mem_intDecRepr _)]
  rfl

/-! ## Claim theorems -/

/-- C9: for every float argument and every internal serial-port state
(port absent, port open, write failing in any way), `update_speed` on the
serial-attached display channels returns normally: every exception the
body can raise (`serial.SerialException`, any other exception from
formatting/write, and everything inside `_reconnect`/`_init_serial`,
whose failures are themselves caught) is caught internally, so nothing
propagates to the caller. -/
theorem update_speed_never_raises (env : SerialEnv) (st : ChannelState) (v : ℚ) :
    ∃ r, update_speed env st v = .ok r := by
  cases hser : st.ser with
  | none =>
      exact ⟨({ st with current_speed := some v }, ⟨0, 0⟩),
        by simp [update_speed, hser]⟩
  | some p =>
      cases hwo : env.writeOutcome with
      | ok =>
          exact ⟨({ st with current_speed := some v,
                            wire := st.wire ++ [speedLine v] }, ⟨0, 1⟩),
            by simp [update_speed, hser, hwo]⟩
      | serialExc =>
          exact ⟨((reconnect env { st with current_speed := some v }).1,
              ⟨(reconnect env { st with current_speed := some v }).2, 1⟩),
            by simp [update_speed, hser, hwo]⟩
      | otherExc =>
          exact ⟨({ st with current_speed := some v }, ⟨0, 1⟩),
            by simp [update_speed, hser, hwo]⟩

/-- C7: a successful `update_speed` call (channel open, write succeeds)
writes exactly one new entry to the wire, equal to the decimal
representation of the integer part of the value followed by a single
newline and nothing else: the entry ends in `'\n'`, contains exactly one
`'\n'`, and all remaining characters are sign/digit characters. -/
theorem update_speed_single_line
    (env : SerialEnv) (st : ChannelState) (v : ℚ) (p : String)
    (hser : st.ser = some p) (hw : env.writeOutcome = .ok) :
    update_speed env st v =
      .ok ({ st with current_speed := some v,
                     wire := st.wire ++ [speedLine v] }, ⟨0, 1⟩)
    ∧ speedLine v = intDecRepr (pyTrunc v) ++ ['\n']
    ∧ (speedLine v).count '\n' = 1
    ∧ (speedLine v).getLast? = some '\n'
    ∧ ∀ c ∈ intDecRepr (pyTrunc v), c ∈ intReprChars := by
  refine ⟨?_, rfl, speedLine_count_newline v, ?_, intDecRepr_subset _⟩
  · simp [update_speed, hser, hw]
  · unfold speedLine
    exact List.getLast?_concat _

/-- C7 witness: a concrete successful call with value `65` on an open
channel appends exactly the line `"65\n"`. -/
theorem update_speed_single_line_witness :
    update_speed ⟨Option.none, true, .ok⟩
        ⟨some "/dev/ttyACM0", some "/dev/ttyACM0", [], Option.none⟩ 65 =
      .ok (⟨some "/dev/ttyACM0", some "/dev/ttyACM0", [speedLine 65], some 65⟩,
        ⟨0, 1⟩)
    ∧ speedLine 65 = ['6', '5', '\n']
    ∧ (speedLine 65).count '\n' = 1 := by
  have h := update_speed_single_line ⟨Option.none, true, .ok⟩
    ⟨some "/dev/ttyACM0", some "/dev/ttyACM0", [], Option.none⟩ 65
    "/dev/ttyACM0" rfl rfl
  exact ⟨h.1, by decide, h.2.2.1⟩

/-- C10: any enumerated serial port whose description contains the
substring `"USB Serial"` passes both families' per-port auto-detection
tests (no override set), and is therefore selected by either locator when
it is the first qualifying port — the two discovery heuristics are not
disjoint. -/
theorem usb_serial_matches_both_families (p : PortInfo)
    (h : containsSub "USB Serial".toList p.description = true) :
    picoPortMatch p = true ∧ esp32PortMatch p = true
    ∧ autoDetect picoPortMatch [p] = some p.device
    ∧ autoDetect esp32PortMatch [p] = some p.device := by
  have hp : picoPortMatch p = true := by
    unfold picoPortMatch
    rw [Bool.or_eq_true]
    refine Or.inl ?_
    simp only [List.any_eq_true]
    exact ⟨"USB Serial".toList, by simp [pico_identifiers], h⟩
  have he : esp32PortMatch p = true := by
    unfold esp32PortMatch
    rw [Bool.or_eq_true]
    refine Or.inl ?_
    simp only [List.any_eq_true]
    exact ⟨"USB Serial".toList, by simp [esp32_identifiers], h⟩
  refine ⟨hp, he, ?_, ?_⟩
  · unfold autoDetect
    rw [List.find?_cons_of_pos _ hp]
    rfl
  · unfold autoDetect
    rw [List.find?_cons_of_pos _ he]
    rfl

/-- C5: the device-side throttle loop forwards a pending value to the
display iff it differs from the last forwarded value and at least
`display_update_interval` has elapsed since the last forward; a held value
is re-evaluated on the next tick rather than dropped (the state is
untouched when nothing is forwarded); the `(last value, last time)` state
updates exactly when a forward occurs (and the pending slot is cleared, so
an idle follow-up tick forwards nothing); and an arriving parsed line
becomes the pending value. -/
theorem device_throttle_tick_spec (interval : ℚ) (st : DeviceThrottle)
    (now v : ℚ) :
    ((throttleForward interval st now).2 = some v ↔
      st.pending_speed = some v ∧ st.last_speed ≠ some v ∧
        interval ≤ now - st.last_display_update)
    ∧ ((throttleForward interval st now).2 = some v →
        (throttleForward interval st now).1 = ⟨Option.none, some v, now⟩)
    ∧ ((throttleForward interval st now).2 = Option.none →
        (throttleForward interval st now).1 = st)
    ∧ ((throttleForward interval st now).2 = some v → ∀ now2 : ℚ,
        (deviceTick interval (throttleForward interval st now).1 [] now2).2 =
          Option.none)
    ∧ (∀ w : ℚ, (ingestLines st [some w]).pending_speed = some w) := by
  have hmain :
      (throttleForward interval st now).2 = some v →
        (throttleForward interval st now).1 = ⟨Option.none, some v, now⟩ := by
    intro h
    cases hp : st.pending_speed with
    | none => simp [throttleForward, hp] at h
    | some w =>
        by_cases hc : st.last_speed ≠ some w ∧ interval ≤ now - st.last_display_update
        · have hw : w = v := by
            simpa [throttleForward, hp, hc] using h
          subst hw
          simp [throttleForward, hp, hc]
        · simp [throttleForward, hp, hc] at h
  refine ⟨?_, hmain, ?_, ?_, ?_⟩
  · constructor
    · intro h
      cases hp : st.pending_speed with
      | none => simp [throttleForward, hp] at h
      | some w =>
          by_cases hc : st.last_speed ≠ some w ∧ interval ≤ now - st.last_display_update
          · have hw : w = v := by
              simpa [throttleForward, hp, hc] using h
            subst hw
            exact ⟨rfl, hc.1, hc.2⟩
          · simp [throttleForward, hp, hc] at h
    · rintro ⟨hp, hne, hel⟩
      simp [throttleForward, hp, hne, hel]
  · intro h
    cases hp : st.pending_speed with
    | none => simp [throttleForward, hp]
    | some w =>
        by_cases hc : st.last_speed ≠ some w ∧ interval ≤ now - st.last_display_update
        · simp [throttleForward, hp, hc] at h
        · simp [throttleForward, hp, hc]
  · intro h now2
    rw [hmain h]
    simp [deviceTick, ingestLines, throttleForward]
  · intro w
    cases hp : st.pending_speed with
    | none => simp [ingestLines, hp]
    | some u =>
        by_cases hw : u = w <;> simp [ingestLines, hp, hw]

/-- C5 witness: with `interval = 1/10`, state `pending = 30`,
`last = None`, `last_update = 0`, a tick at `now = 1/10` forwards `30`,
clears the pending slot, records `(30, 1/10)`, and the following idle tick
forwards nothing. -/
theorem device_throttle_tick_spec_witness :
    (throttleForward (1/10) ⟨some 30, Option.none, 0⟩ (1/10)).2 = some 30
    ∧ (throttleForward (1/10) ⟨some 30, Option.none, 0⟩ (1/10)).1 =
        ⟨Option.none, some 30, 1/10⟩
    ∧ (deviceTick (1/10)
        (throttleForward (1/10) ⟨some 30, Option.none, 0⟩ (1/10)).1 [] (2/10)).2 =
        Option.none
    ∧ (ingestLines ⟨some 30, Option.none, 0⟩ [some 42]).pending_speed = some 42 := by
  have h := device_throttle_tick_spec (1/10) ⟨some 30, Option.none, 0⟩ (1/10) 30
  have hfwd : (throttleForward (1/10) ⟨some 30, Option.none, 0⟩ (1/10)).2 = some 30 :=
    h.1.mpr ⟨rfl, by decide, by norm_num⟩
  exact ⟨hfwd, h.2.1 hfwd, h.2.2.2.1 hfwd (2/10), h.2.2.2.2 42⟩

/-- A run of `k + 1` consecutive connection failures starting with
`retry_count = r` and `max_retries = r + k + 1` exhausts the budget:
exactly `k + 1` attempts, a fatal raise, no cleanup, and the remaining
script is never reached. -/
lemma connectLoop_consec_fail (k : ℕ) :
    ∀ (maxR r : ℕ) (rest : List ConnAttempt), maxR = r + k + 1 →
      connectLoop maxR r (List.replicate (k + 1) .connFail ++ rest) =
        ⟨.fatal, k + 1, [], 0⟩ := by
  induction k with
  | zero =>
      intro maxR r rest h
      subst h
      rw [List.replicate_succ, List.replicate_zero, List.cons_append,
        List.nil_append, connectLoop.eq_def]
      dsimp only
      rw [if_neg (by omega : ¬ (r + 0 + 1 ≤ r)),
        if_neg (by omega : ¬ (r + 1 < r + 0 + 1))]
  | succ k ih =>
      intro maxR r rest h
      subst h
      have hrec := ih (r + (k + 1) + 1) (r + 1) rest (by omega)
      rw [List.replicate_succ, List.cons_append, connectLoop.eq_def]
      dsimp only
      rw [if_neg (by omega : ¬ (r + (k + 1) + 1 ≤ r)),
        if_pos (by omega : r + 1 < r + (k + 1) + 1), hrec]
      rfl

/-- C6: after `maxRetries` consecutive connection failures the stream
consumer raises fatally, having attempted exactly `maxRetries`
connections — whatever follows in the script (the would-be
`maxRetries + 1`-th attempt) is never reached; and a successful connection
resets the retry counter to zero: from any in-budget retry count `r`, a
connection that streams events and ends normally continues the loop with
retry count `0`, restoring the full budget. -/
theorem retry_budget_spec :
    (∀ (maxR : ℕ) (rest : List ConnAttempt), 1 ≤ maxR →
      connect_and_display maxR (List.replicate maxR .connFail ++ rest) =
        ⟨.fatal, maxR, [], 0⟩)
    ∧ (∀ (maxR r : ℕ) (events : List SEvent) (rest : List ConnAttempt),
        r < maxR → (processEvents events).2 = false →
        connectLoop maxR r (.streamed events .normal :: rest) =
          (connectLoop maxR 0 rest).after (processEvents events).1) := by
  constructor
  · intro maxR rest h
    obtain ⟨k, hk⟩ : ∃ k, maxR = k + 1 := ⟨maxR - 1, by omega⟩
    subst hk
    exact connectLoop_consec_fail k (k + 1) 0 rest (by omega)
  · intro maxR r events rest hr hab
    rw [connectLoop.eq_def]
    dsimp only
    rw [if_neg (by omega : ¬ (maxR ≤ r))]
    simp only [hab]
    rfl

/-- C6 witness: with `maxRetries = 2`, two consecutive connection failures
end the run fatally after exactly 2 attempts; and from retry count 1, a
successful empty stream ending normally continues with retry count 0. -/
theorem retry_budget_spec_witness :
    (1 ≤ 2 ∧
      connect_and_display 2 (List.replicate 2 .connFail ++ []) =
        ⟨.fatal, 2, [], 0⟩)
    ∧ ((1 : ℕ) < 2 ∧ (processEvents []).2 = false ∧
      connectLoop 2 1 [.streamed [] .normal] =
        (connectLoop 2 0 []).after (processEvents []).1) :=
  ⟨⟨by decide, retry_budget_spec.1 2 [] (by decide)⟩,
    by decide, rfl, retry_budget_spec.2 2 1 [] [] (by decide) rfl⟩

/-- C8 (amended): `display.cleanup()` runs exactly once when the run loop
terminates non-fatally (external interrupt, or the loop guard going
false), and zero times when the fatal raise after retry exhaustion
propagates (the call after the loop is skipped). -/
theorem cleanup_iff_nonfatal : ∀ (maxR r : ℕ) (script : List ConnAttempt),
    (connectLoop maxR r script).cleanups =
      if (connectLoop maxR r script).exit = .finished then 1 else 0 := by
  intro maxR r script
  induction script generalizing r with
  | nil =>
      rw [connectLoop.eq_def]
      dsimp only
      by_cases h : maxR ≤ r
      · rw [if_pos h]
        rfl
      · rw [if_neg h]
        rfl
  | cons a rest ih =>
      rw [connectLoop.eq_def]
      dsimp only
      by_cases h : maxR ≤ r
      · rw [if_pos h]
        rfl
      · rw [if_neg h]
        cases a with
        | connFail =>
            dsimp only
            by_cases h2 : r + 1 < maxR
            · rw [if_pos h2]
              dsimp only [RunResult.after]
              exact ih (r + 1)
            · rw [if_neg h2]
              rfl
        | interruptOnConnect => rfl
        | streamed events term =>
            dsimp only
            by_cases hab : (processEvents events).2 = true
            · rw [if_pos hab]
              by_cases h2 : 1 < maxR
              · rw [if_pos h2]
                dsimp only [RunResult.after]
                exact ih 1
              · rw [if_neg h2]
                rfl
            · rw [if_neg hab]
              cases term with
              | normal =>
                  dsimp only [RunResult.after]
                  exact ih 0
              | requestErr =>
                  dsimp only
                  by_cases h2 : 1 < maxR
                  · rw [if_pos h2]
                    dsimp only [RunResult.after]
                    exact ih 1
                  · rw [if_neg h2]
                    rfl
              | interrupt => rfl

/-- C8 counterexample: with the default `max_retries = 10`, ten
consecutive connection failures make `connect_and_display` raise fatally
— and `display.cleanup()` is called zero times, not once, before the
fatal error propagates. -/
theorem fatal_skips_cleanup_cex :
    connect_and_display 10 (List.replicate 10 .connFail) = ⟨.fatal, 10, [], 0⟩
    ∧ ¬ ((connect_and_display 10 (List.replicate 10 .connFail)).cleanups = 1) := by
  constructor <;> decide

/-- Python `or` keeps a truthy left operand. -/
lemma pyOr_of_truthy {a : PyVal} (b : PyVal) (h : truthy a = true) :
    pyOr a b = a := by
  rw [pyOr, if_pos h]

/-- Python `or` falls through a falsy left operand. -/
lemma pyOr_of_falsy {a : PyVal} (b : PyVal) (h : truthy a = false) :
    pyOr a b = b := by
  rw [pyOr, if_neg (by simp [h])]

/-- A numeric value that is nonzero is truthy. -/
lemma truthy_of_numval {sv : PyVal} {v : ℚ} (hnum : numval sv = some v)
    (hnz : v ≠ 0) : truthy sv = true := by
  cases sv with
  | int n =>
      have hv : (n : ℚ) = v := by simpa [numval] using hnum
      have hn : n ≠ 0 := by
        intro h
        exact hnz (by rw [← hv, h, Int.cast_zero])
      simp [truthy, hn]
  | float q =>
      have hv : q = v := by simpa [numval] using hnum
      have hq : q ≠ 0 := hv ▸ hnz
      simp [truthy, hq]
  | none => simp [numval] at hnum
  | bool b => simp [numval] at hnum
  | str s => simp [numval] at hnum
  | list xs => simp [numval] at hnum
  | dict kvs => simp [numval] at hnum

/-- `float()` of a numeric value is that value. -/
lemma pyFloat_of_numval {sv : PyVal} {v : ℚ} (hnum : numval sv = some v) :
    pyFloat sv = .ok v := by
  cases sv with
  | int n =>
      have hv : (n : ℚ) = v := by simpa [numval] using hnum
      simp [pyFloat, hv]
  | float q =>
      have hv : q = v := by simpa [numval] using hnum
      simp [pyFloat, hv]
  | none => simp [numval] at hnum
  | bool b => simp [numval] at hnum
  | str s => simp [numval] at hnum
  | list xs => simp [numval] at hnum
  | dict kvs => simp [numval] at hnum

/-- Evaluating `parse_event_data` on a dict whose probe chain resolved to
a numeric value `sv` yields that value. -/
lemma parse_of_speed_numval {kvs : List (String × PyVal)} {sv : PyVal} {v : ℚ}
    (hnum : numval sv = some v)
    (hsp : pyOr (pyOr (dictGet kvs "VDM_VehicleSpeed") (dictGet kvs "value"))
        (dictGet kvs "speed") = sv) :
    parse_event_data (.ok (.dict kvs)) = .ok (some v) := by
  have hfl := pyFloat_of_numval hnum
  cases sv with
  | int n => simp [parse_event_data, hsp, hfl]
  | float q => simp [parse_event_data, hsp, hfl]
  | none => simp [numval] at hnum
  | bool b => simp [numval] at hnum
  | str s => simp [numval] at hnum
  | list xs => simp [numval] at hnum
  | dict kvs2 => simp [numval] at hnum

/-- C1 (amended): for a JSON object payload, the reading selected by
`parse_event_data` is the value of the first key in the order
`VDM_VehicleSpeed`, `value`, `speed` whose bound value is truthy: a key
bound to a nonzero numeric value wins whenever all earlier keys in the
order are falsy (absent, `0`, etc.).  In particular a payload whose single
recognized key holds a nonzero numeric value parses to that value;
a recognized key bound to `0` is passed over, not selected. -/
theorem parse_first_truthy_nonzero
    (kvs : List (String × PyVal)) (sv : PyVal) (v : ℚ)
    (hnum : numval sv = some v) (hnz : v ≠ 0) :
    (dictGet kvs "VDM_VehicleSpeed" = sv →
        parse_event_data (.ok (.dict kvs)) = .ok (some v))
    ∧ (truthy (dictGet kvs "VDM_VehicleSpeed") = false →
        dictGet kvs "value" = sv →
        parse_event_data (.ok (.dict kvs)) = .ok (some v))
    ∧ (truthy (dictGet kvs "VDM_VehicleSpeed") = false →
        truthy (dictGet kvs "value") = false →
        dictGet kvs "speed" = sv →
        parse_event_data (.ok (.dict kvs)) = .ok (some v)) := by
  have htr : truthy sv = true := truthy_of_numval hnum hnz
  refine ⟨?_, ?_, ?_⟩
  · intro h1
    refine parse_of_speed_numval hnum ?_
    rw [h1, pyOr_of_truthy _ htr, pyOr_of_truthy _ htr]
  · intro h1 h2
    refine parse_of_speed_numval hnum ?_
    rw [pyOr_of_falsy _ h1, h2, pyOr_of_truthy _ htr]
  · intro h1 h2 h3
    refine parse_of_speed_numval hnum ?_
    rw [pyOr_of_falsy _ h1, pyOr_of_falsy _ h2, h3]

/-- C1 witness: the payload `{"value": 30}` has exactly one recognized
key, bound to the nonzero numeric `30`, and parses to `30.0`. -/
theorem parse_first_truthy_nonzero_witness :
    numval (PyVal.int 30) = some 30 ∧ (30 : ℚ) ≠ 0
    ∧ truthy (dictGet [("value", PyVal.int 30)] "VDM_VehicleSpeed") = false
    ∧ dictGet [("value", PyVal.int 30)] "value" = PyVal.int 30
    ∧ parse_event_data (.ok (.dict [("value", PyVal.int 30)])) = .ok (some 30) := by
  refine ⟨by norm_num [numval], by norm_num, by decide, rfl, ?_⟩
  exact (parse_first_truthy_nonzero [("value", PyVal.int 30)] (PyVal.int 30) 30
    (by norm_num [numval]) (by norm_num)).2.1 (by decide) rfl

/-- C1 counterexample: on `{"VDM_VehicleSpeed": 0, "value": 5}` the claim
says the first present recognized key wins regardless of its value,
so the reading should be `0.0`; the code's `or`-chain skips the falsy `0`
and returns `5.0` instead. -/
theorem parse_zero_key_cex :
    parse_event_data
        (.ok (.dict [("VDM_VehicleSpeed", PyVal.int 0), ("value", PyVal.int 5)]))
      = .ok (some 5)
    ∧ ¬ (parse_event_data
        (.ok (.dict [("VDM_VehicleSpeed", PyVal.int 0), ("value", PyVal.int 5)]))
      = .ok (some 0)) := by
  have h : parse_event_data
      (.ok (.dict [("VDM_VehicleSpeed", PyVal.int 0), ("value", PyVal.int 5)]))
      = .ok (some 5) := by
    have h5 : numval (PyVal.int 5) = some 5 := by norm_num [numval]
    have hin :
        pyOr
          (dictGet [("VDM_VehicleSpeed", PyVal.int 0), ("value", PyVal.int 5)]
            "VDM_VehicleSpeed")
          (dictGet [("VDM_VehicleSpeed", PyVal.int 0), ("value", PyVal.int 5)]
            "value")
        = PyVal.int 5 := by
      rw [pyOr_of_falsy _ (by decide)]
      rfl
    refine parse_of_speed_numval h5 ?_
    rw [hin, pyOr_of_truthy _ (by decide)]
  refine ⟨h, ?_⟩
  rw [h]
  intro hc
  have : (5 : ℚ) = 0 := by
    have := Except.ok.inj hc
    exact Option.some.inj this
  norm_num at this

/-- C2 (amended): for every input that is malformed JSON or parses to a
JSON object — whatever its fields hold — `parse_event_data` returns a
result (a float or `None`) without raising, and processing such a frame
never aborts the event stream: the loop's abort status is unchanged by
the frame. -/
theorem parse_object_or_malformed_total (inp : Except Unit PyVal)
    (h : inp = .error () ∨ ∃ kvs, inp = .ok (.dict kvs)) :
    (∃ r, parse_event_data inp = .ok r)
    ∧ ∀ rest, (processEvents (⟨some inp⟩ :: rest)).2 = (processEvents rest).2 := by
  have hok : ∃ r, parse_event_data inp = .ok r := by
    rcases h with h | ⟨kvs, h⟩ <;> subst h
    · exact ⟨Option.none, rfl⟩
    · unfold parse_event_data
      dsimp only
      split
      · exact ⟨Option.none, rfl⟩
      · split
        · exact ⟨_, rfl⟩
        · exact ⟨Option.none, rfl⟩
  refine ⟨hok, ?_⟩
  intro rest
  obtain ⟨r, hr⟩ := hok
  cases r <;> simp [processEvents, hr]

/-- C2 witness: the malformed-JSON input parses to `None` without raising
and does not abort the stream. -/
theorem parse_object_or_malformed_total_witness :
    ((.error () : Except Unit PyVal) = .error ()
      ∨ ∃ kvs, (.error () : Except Unit PyVal) = .ok (.dict kvs))
    ∧ ((∃ r, parse_event_data (.error ()) = .ok r)
      ∧ ∀ rest, (processEvents (⟨some (.error ())⟩ :: rest)).2 =
          (processEvents rest).2) :=
  ⟨Or.inl rfl, parse_object_or_malformed_total (.error ()) (Or.inl rfl)⟩

/-- C2 counterexample: the input `"[1, 2, 3]"` is valid JSON of non-object
shape; `data.get(...)` raises `AttributeError`, which `parse_event_data`
does not catch — contradicting "returns either a float or None without
raising an exception for every input string".  In the streaming loop the
exception lands in the generic `except Exception` handler, which
increments the retry counter (to 1 here) — the retry path *is* entered. -/
theorem parse_nonobject_raises_cex :
    parse_event_data (.ok (.list [.int 1, .int 2, .int 3]))
      = .error .attributeError
    ∧ connectLoop 10 0 [.streamed [⟨some (.ok (.list [.int 1, .int 2, .int 3]))⟩]
        .normal]
      = ⟨.outOfScript 1, 1, [], 0⟩ := by
  constructor
  · rfl
  · decide

/-- Concrete evaluation: the payload `{"value": 30}` parses to `30.0`. -/
lemma parse_value30 :
    parse_event_data (.ok (.dict [("value", PyVal.int 30)])) = .ok (some 30) := by
  have h30 : numval (PyVal.int 30) = some 30 := by norm_num [numval]
  have hin :
      pyOr (dictGet [("value", PyVal.int 30)] "VDM_VehicleSpeed")
        (dictGet [("value", PyVal.int 30)] "value")
      = PyVal.int 30 := by
    rw [pyOr_of_falsy _ (by decide)]
    rfl
  refine parse_of_speed_numval h30 ?_
  rw [hin, pyOr_of_truthy _ (by decide)]

/-- C3 (amended): on a write failure (`serial.SerialException`) the
channel synchronously reconnects *inside the same call* — closing the
port and, whenever a port can be resolved, making a fresh
`serial.Serial` open attempt before `update_speed` returns.  A subsequent
call makes no open attempt of its own: when the channel is disconnected
it returns without writing or opening, and when it is connected it writes
directly without reopening. -/
theorem write_failure_eager_reconnect (env : SerialEnv) (st : ChannelState)
    (v : ℚ) :
    (∀ p, st.ser = some p → env.writeOutcome = .serialExc →
      update_speed env st v =
        .ok ((reconnect env { st with current_speed := some v }).1,
          ⟨(reconnect env { st with current_speed := some v }).2, 1⟩)
      ∧ ((find_serial_port env st).isSome = true →
          (reconnect env { st with current_speed := some v }).2 = 1))
    ∧ (st.ser = Option.none →
        update_speed env st v = .ok ({ st with current_speed := some v }, ⟨0, 0⟩))
    ∧ (∀ p, st.ser = some p → env.writeOutcome = .ok →
        update_speed env st v =
          .ok ({ st with current_speed := some v,
                         wire := st.wire ++ [speedLine v] }, ⟨0, 1⟩)) := by
  refine ⟨?_, ?_, ?_⟩
  · intro p hser hw
    constructor
    · simp [update_speed, hser, hw]
    · intro hfp
      unfold reconnect init_serial
      have hfind : find_serial_port env
          { st with current_speed := some v, ser := Option.none } =
          find_serial_port env st := by
        simp [find_serial_port]
      rw [hfind]
      obtain ⟨q, hq⟩ := Option.isSome_iff_exists.mp hfp
      rw [hq]
      cases env.openOk <;> simp
  · intro hser
    simp [update_speed, hser]
  · intro p hser hw
    simp [update_speed, hser, hw]

/-- C3 witness: with the port resolvable, open succeeding and the write
raising `SerialException`, a call on an open channel performs the
reconnect within the call (one fresh open attempt); a call on a
disconnected channel returns with zero open attempts and zero writes. -/
theorem write_failure_eager_reconnect_witness :
    (update_speed ⟨some "/dev/ttyACM0", true, .serialExc⟩
        ⟨some "/dev/ttyACM0", some "/dev/ttyACM0", [], Option.none⟩ 30 =
      .ok ((reconnect ⟨some "/dev/ttyACM0", true, .serialExc⟩
            ⟨some "/dev/ttyACM0", some "/dev/ttyACM0", [], some 30⟩).1,
        ⟨(reconnect ⟨some "/dev/ttyACM0", true, .serialExc⟩
            ⟨some "/dev/ttyACM0", some "/dev/ttyACM0", [], some 30⟩).2, 1⟩))
    ∧ (reconnect ⟨some "/dev/ttyACM0", true, .serialExc⟩
        ⟨some "/dev/ttyACM0", some "/dev/ttyACM0", [], some 30⟩).2 = 1
    ∧ update_speed ⟨some "/dev/ttyACM0", true, .serialExc⟩
        ⟨some "/dev/ttyACM0", Option.none, [], Option.none⟩ 30 =
      .ok (⟨some "/dev/ttyACM0", Option.none, [], some 30⟩, ⟨0, 0⟩) := by
  have h := write_failure_eager_reconnect ⟨some "/dev/ttyACM0", true, .serialExc⟩
    ⟨some "/dev/ttyACM0", some "/dev/ttyACM0", [], Option.none⟩ 30
  have h2 := write_failure_eager_reconnect ⟨some "/dev/ttyACM0", true, .serialExc⟩
    ⟨some "/dev/ttyACM0", Option.none, [], Option.none⟩ 30
  exact ⟨(h.1 "/dev/ttyACM0" rfl rfl).1, (h.1 "/dev/ttyACM0" rfl rfl).2 rfl,
    h2.2.1 rfl⟩

/-- C3 counterexample: the claim says a failing write does *not*
synchronously retry the connection inside that call, and that the *next*
call attempts a fresh open before writing.  The code does the opposite:
with the write raising `SerialException` and the reconnect's open failing,
the failing call itself makes one `serial.Serial` open attempt
(trace `⟨1, 1⟩`), and the next call — now disconnected — makes zero open
attempts and zero writes (trace `⟨0, 0⟩`). -/
theorem write_failure_sync_reconnect_cex :
    update_speed ⟨Option.none, false, .serialExc⟩
        ⟨some "/dev/ttyACM0", some "/dev/ttyACM0", [], Option.none⟩ 30 =
      .ok (⟨some "/dev/ttyACM0", Option.none, [], some 30⟩, ⟨1, 1⟩)
    ∧ update_speed ⟨Option.none, false, .serialExc⟩
        ⟨some "/dev/ttyACM0", Option.none, [], some 30⟩ 30 =
      .ok (⟨some "/dev/ttyACM0", Option.none, [], some 30⟩, ⟨0, 0⟩) := by
  constructor
  · rfl
  · rfl

/-- C4 (amended): the host pipeline forwards *every* successfully parsed
value to the display channel — there is no host-side deduplication or
throttling before the serial write — and with the channel open and writes
succeeding, each forwarded value produces its own serial line.  Two
stream events carrying the same numeric value therefore produce two
identical lines on the wire (the value/interval throttle lives on the
device, in `code.py`'s display loop, after the serial transfer). -/
theorem forwards_unthrottled :
    (∀ (e : SEvent) (rest : List SEvent) (inp : Except Unit PyVal) (v : ℚ),
      e.data = some inp → parse_event_data inp = .ok (some v) →
      (processEvents (e :: rest)).1 = v :: (processEvents rest).1)
    ∧ (∀ (env : SerialEnv) (st : ChannelState) (p : String) (vs : List ℚ),
        st.ser = some p → env.writeOutcome = .ok →
        (update_speed_all env st vs).wire = st.wire ++ vs.map speedLine) := by
  constructor
  · intro e rest inp v hdata hparse
    simp [processEvents, hdata, hparse]
  · intro env st p vs
    induction vs generalizing st with
    | nil =>
        intro hser hw
        simp [update_speed_all]
    | cons v vs ih =>
        intro hser hw
        have hstep : update_speed_state env st v =
            { st with current_speed := some v,
                      wire := st.wire ++ [speedLine v] } := by
          simp [update_speed_state, update_speed, hser, hw]
        have h2 := ih { st with current_speed := some v,
                                wire := st.wire ++ [speedLine v] } hser hw
        calc (update_speed_all env st (v :: vs)).wire
            = (update_speed_all env
                { st with current_speed := some v,
                          wire := st.wire ++ [speedLine v] } vs).wire := by
              rw [update_speed_all, List.foldl_cons, hstep]
              rfl
          _ = st.wire ++ (v :: vs).map speedLine := by
              rw [h2]
              simp

/-- C4 witness: the event `{"value": 30}` arriving twice is forwarded
twice by the host loop, and feeding the two values through an open
channel appends two lines to the wire. -/
theorem forwards_unthrottled_witness :
    (processEvents [⟨some (.ok (.dict [("value", PyVal.int 30)]))⟩,
        ⟨some (.ok (.dict [("value", PyVal.int 30)]))⟩]).1
      = 30 :: (processEvents [⟨some (.ok (.dict [("value", PyVal.int 30)]))⟩]).1
    ∧ (update_speed_all ⟨Option.none, true, .ok⟩
        ⟨some "/dev/ttyACM0", some "/dev/ttyACM0", [], Option.none⟩
        [30, 30]).wire
      = [speedLine 30, speedLine 30] :=
  ⟨forwards_unthrottled.1 _ _ _ 30 rfl parse_value30,
    forwards_unthrottled.2 ⟨Option.none, true, .ok⟩
      ⟨some "/dev/ttyACM0", some "/dev/ttyACM0", [], Option.none⟩
      "/dev/ttyACM0" [30, 30] rfl rfl⟩

/-- C4 counterexample: the claim says that when the stream delivers two
events carrying the same value within the same throttle window, exactly
one line is written to the serial device.  In the code the host loop
forwards both parses of `{"value": 30}` and the channel writes a line for
each: the wire receives two `"30\n"` lines, not one. -/
theorem duplicate_value_two_lines_cex :
    processEvents [⟨some (.ok (.dict [("value", PyVal.int 30)]))⟩,
        ⟨some (.ok (.dict [("value", PyVal.int 30)]))⟩]
      = ([30, 30], false)
    ∧ (update_speed_all ⟨Option.none, true, .ok⟩
          ⟨some "/dev/ttyACM0", some "/dev/ttyACM0", [], Option.none⟩
          [30, 30]).wire
        = [speedLine 30, speedLine 30]
    ∧ ¬ ((update_speed_all ⟨Option.none, true, .ok⟩
          ⟨some "/dev/ttyACM0", some "/dev/ttyACM0", [], Option.none⟩
          [30, 30]).wire.length = 1) := by
  have hw : (update_speed_all ⟨Option.none, true, .ok⟩
      ⟨some "/dev/ttyACM0", some "/dev/ttyACM0", [], Option.none⟩
      [30, 30]).wire = [speedLine 30, speedLine 30] := by
    simp [update_speed_all, update_speed_state, update_speed]
  refine ⟨?_, hw, ?_⟩
  · simp [processEvents, parse_value30]
  · rw [hw]
    simp

/-- C10 witness: a generic USB-serial adapter (description
`"USB Serial Converter"`, no USB vendor ID) is matched by both the Pico
and the ESP32 locator. -/
theorem usb_serial_matches_both_families_witness :
    containsSub "USB Serial".toList "USB Serial Converter".toList = true
    ∧ (picoPortMatch ⟨"/dev/ttyUSB0", "USB Serial Converter".toList, Option.none⟩ = true
      ∧ esp32PortMatch ⟨"/dev/ttyUSB0", "USB Serial Converter".toList, Option.none⟩ = true
      ∧ autoDetect picoPortMatch
          [⟨"/dev/ttyUSB0", "USB Serial Converter".toList, Option.none⟩] = some "/dev/ttyUSB0"
      ∧ autoDetect esp32PortMatch
          [⟨"/dev/ttyUSB0", "USB Serial Converter".toList, Option.none⟩] = some "/dev/ttyUSB0") :=
  ⟨by decide,
    usb_serial_matches_both_families
      ⟨"/dev/ttyUSB0", "USB Serial Converter".toList, Option.none⟩ (by decide)⟩

end Hudler
